import Mathlib

/-!
Shallow embedding of `src/server.js` (the current version of the file: the
Socket.IO experiment-control server).  The mutable module-level variables of
the server become fields of a `Session` record; each `socket.on` handler
becomes one arm of the `handle` dispatch function, returning the new session
together with the list of events it `io.emit`s (in emission order).  The
JavaScript event loop's set of live `setInterval` tasks is modelled by the
`liveTimers` field together with a fresh-id counter `nextTimerId`; the
scheduler firing a tick of interval `t` is the `fireTimer` function, which is
a no-op for an id that has been cancelled with `clearInterval`.

Wall-clock timestamps (`new Date().toISOString()`) and the file-system paths
of the CSV/log sinks are outside the model: a telemetry row keeps every CSV
column except TIMESTAMP, and a log-file write is recorded as an event
carrying the file-name tag and the rendered content.
-/

/-- A problem of the content catalog: an opaque JSON payload. -/
structure Problem where
  content : String
deriving DecidableEq, Repr

/-- A block of the content catalog: its ordered problems (payload fields other
than `problems` are opaque). -/
structure Block where
  name : String
  problems : List Problem
deriving DecidableEq, Repr

/-- A chat message as pushed onto `messages` (the server reads the fields
`user`, `text` and `timeStamp`). -/
structure ChatMessage where
  user : String
  text : String
  timeStamp : String
deriving DecidableEq, Repr

/-- The chimes configuration `{messageSent, messageReceived, timer}`. -/
structure ChimesCfg where
  messageSent : Bool
  messageReceived : Bool
  timer : Bool
deriving DecidableEq, Repr

/-- One telemetry CSV row (columns USER, CONFEDERATE, ACTION, TEXT, X, Y,
RESOLUTION; the wall-clock TIMESTAMP column is abstracted away).  A JS field
that is `null` or absent (`undefined`) is `none`. -/
structure TelemetryRow where
  user : Option String
  confederate : String
  action : Option String
  text : Option String
  x : Option Int
  y : Option Int
  resolution : Option String
deriving DecidableEq, Repr

/-- The payload object built by `resolveGame` and emitted as "game resolved". -/
structure Resolution where
  pointsAwarded : Int
  isAnswerCorrect : Bool
  teamAnswer : Option String
  currentScore : Int
deriving DecidableEq, Repr

/-- One `io.emit` (or file-sink write) performed by a handler, in order. -/
inductive Event where
  | chatMessage (msg : ChatMessage)
  | userTyping (username : String)
  | logWrite (fileTag : String) (content : String)
  | chatCleared
  | newConfederate (name : String)
  | problemUpdate (block : Option Block) (problem : Option Problem)
  | problemUpdateRaw (data : String)
  | timerUpdate (value : Int)
  | statusUpdate (live : Bool)
  | chimesUpdated (cfg : Option ChimesCfg)
  | setAnswer (answer : Option String)
  | telemetry (row : TelemetryRow)
  | gameResolved (resolution : Resolution)
  | pointsUpdate (score : Int)
  | tutorialDone (tries : Int)
  | showEndModal
deriving DecidableEq, Repr

/-- The server's module-level mutable state (`let` declarations at the top of
`server.js`), plus the model of the event loop's interval tasks.  `timer` is
the handle stored in the JS variable `timer`; `liveTimers` is the set (here a
list) of interval ids registered with `setInterval` and not yet cancelled;
`nextTimerId` supplies fresh ids.  `blocks` is the catalog loaded once at
startup (possibly `[]` when `blocks.json` is unreadable). -/
structure Session where
  messages : List ChatMessage
  confederateName : String
  participantName : Option String
  timer : Option Nat
  liveTimers : List Nat
  nextTimerId : Nat
  maxTime : Int
  countdown : Option Int
  pointsAwarded : Int
  currentScore : Int
  currentBlockIndex : Option Int
  currentProblemIndex : Option Int
  gameIsLive : Bool
  chimesConfig : Option ChimesCfg
  gameResolutionType : Option String
  teamAnswer : Option String
  blocks : List Block
deriving DecidableEq, Repr

/-- The initial state of the server: `maxTime` and `pointsAwarded` come from
`config.json`, `blocks` from `resources/blocks.json`; everything else starts
as in the `let` initializers of `server.js`. -/
def initSession (bs : List Block) (mt pa : Int) : Session :=
  { messages := []
    confederateName := ""
    participantName := none
    timer := none
    liveTimers := []
    nextTimerId := 0
    maxTime := mt
    countdown := none
    pointsAwarded := pa
    currentScore := 0
    currentBlockIndex := none
    currentProblemIndex := none
    gameIsLive := false
    chimesConfig := none
    gameResolutionType := none
    teamAnswer := none
    blocks := bs }

/-- JS `ToNumber` on the values our index/countdown variables range over:
`null` coerces to `0`, a number to itself. -/
def jsToNumber : Option Int → Int
  | none => 0
  | some n => n

/-- JS array indexing `xs[i]` for an index that is `null` or an integer:
`xs[null]` is `undefined`, a negative or too-large integer index is
`undefined`, otherwise the element.  `undefined` is `none`. -/
def jsIndex {α : Type} (xs : List α) : Option Int → Option α
  | none => none
  | some i => if 0 ≤ i then xs.get? i.toNat else none

/-- JS `countdown > 0`: `null > 0` is false (null coerces to 0). -/
def jsGtZero (v : Option Int) : Bool := jsToNumber v > 0

/-- `clearInterval(timer)`: removes the interval id held in the JS `timer`
variable from the event loop's live set; `clearInterval(null)` is a no-op. -/
def clearIntervalOpt : Option Nat → List Nat → List Nat
  | none, live => live
  | some t, live => live.erase t

/-- How `clear chat` renders one message into the chat log. -/
def renderMsg (m : ChatMessage) : String :=
  m.timeStamp ++ " - " ++ m.user ++ ": " ++ m.text

/-- `refreshGameItems` of `server.js`: `blocks[currentBlockIndex]` and
`block?.problems[currentProblemIndex]` — the optional chaining makes the
problem `undefined` whenever the block is. -/
def refreshGameItems (s : Session) : Option Block × Option Problem :=
  let block := jsIndex s.blocks s.currentBlockIndex
  let problem :=
    match block with
    | none => none
    | some b => jsIndex b.problems s.currentProblemIndex
  (block, problem)

/-- Shared tail of the problem-navigation handlers: emit one
"problem update" with the freshly resolved pair. -/
def refreshAfter (s : Session) : Session × List Event :=
  let bp := refreshGameItems s
  (s, [Event.problemUpdate bp.1 bp.2])

/-- `resolveGame` of `server.js`.  The telemetry row snapshots
`gameResolutionType` before the switch; the switch arms are `AP`/`DP`
(fall-through), `ANP`/`DNP` (fall-through), and `default:` sharing a block
with `case TNP` (so an unset or unrecognized kind behaves like `TNP`).
After the switch the payload gets `isAnswerCorrect`, the (post-branch)
`teamAnswer` and the (post-branch) `currentScore`; then both staged inputs
are cleared and the payload is emitted. -/
def resolveGame (s : Session) : Session × List Event :=
  let row : TelemetryRow :=
    { user := s.participantName
      confederate := s.confederateName
      action := some "game resolved"
      text := none
      x := none
      y := none
      resolution := s.gameResolutionType }
  if s.gameResolutionType = some "AP" ∨ s.gameResolutionType = some "DP" then
    let score := s.currentScore + s.pointsAwarded
    let res : Resolution :=
      { pointsAwarded := s.pointsAwarded
        isAnswerCorrect := true
        teamAnswer := s.teamAnswer
        currentScore := score }
    ({ s with currentScore := score, gameResolutionType := none, teamAnswer := none },
      [Event.telemetry row, Event.gameResolved res])
  else if s.gameResolutionType = some "ANP" ∨ s.gameResolutionType = some "DNP" then
    let res : Resolution :=
      { pointsAwarded := 0
        isAnswerCorrect := false
        teamAnswer := s.teamAnswer
        currentScore := s.currentScore }
    ({ s with gameResolutionType := none, teamAnswer := none },
      [Event.telemetry row, Event.gameResolved res])
  else
    let res : Resolution :=
      { pointsAwarded := 0
        isAnswerCorrect := false
        teamAnswer := none
        currentScore := s.currentScore }
    ({ s with gameResolutionType := none, teamAnswer := none },
      [Event.telemetry row, Event.gameResolved res])

/-- The named client commands of the current `server.js` (one constructor per
`socket.on` handler that affects the model; `disconnect` only logs). -/
inductive Command where
  | setParticipantName (name : String)
  | chatMessage (msg : ChatMessage)
  | typing (username : String)
  | clearChat
  | setConfederate (name : String)
  | updateProblemSelection (blockIndex problemIndex : Option Int)
  | firstBlock
  | nextBlock
  | nextProblem
  | startTimer
  | stopTimer
  | resetTimer
  | setMaxTime (time : Int)
  | telemetryEvent (data : TelemetryRow)
  | startGame
  | stopGame
  | setChimes (cfg : ChimesCfg)
  | getChimes
  | setGameResolution (kind : Option String) (answer : Option String)
  | blockFinished
  | tutorialProblem (data : String)
  | resetPoints
  | clearAnswer
  | tutorialDone (numTries : Int)
  | gameEnded

/-- The command router: one arm per `socket.on` handler of the current
`server.js`, mutating the session and emitting events in the handler's
order.  JS coercion subtleties are kept: in `next block`,
`currentBlockIndex >= 0` is true for `null` (null coerces to 0) and
`currentBlockIndex++` on `null` stores `1`; in `next problem` the guard is
`currentProblemIndex != null && currentProblemIndex < 4`. -/
def handle : Command → Session → Session × List Event
  | Command.setParticipantName n, s =>
      ({ s with participantName := some n }, [])
  | Command.chatMessage m, s =>
      ({ s with messages := s.messages ++ [m] }, [Event.chatMessage m])
  | Command.typing u, s =>
      (s, [Event.userTyping u])
  | Command.clearChat, s =>
      let content := String.intercalate "\n" (s.messages.map renderMsg)
      ({ s with messages := [] },
        [Event.logWrite "chat_logs" content, Event.chatCleared])
  | Command.setConfederate n, s =>
      ({ s with confederateName := n }, [Event.newConfederate n])
  | Command.updateProblemSelection bi pi, s =>
      refreshAfter { s with currentBlockIndex := bi, currentProblemIndex := pi }
  | Command.firstBlock, s =>
      refreshAfter { s with currentBlockIndex := some 0, currentProblemIndex := some 0 }
  | Command.nextBlock, s =>
      let b :=
        if 0 ≤ jsToNumber s.currentBlockIndex then
          some (jsToNumber s.currentBlockIndex + 1)
        else some 0
      refreshAfter { s with currentBlockIndex := b, currentProblemIndex := some 0 }
  | Command.nextProblem, s =>
      let row : TelemetryRow :=
        { user := s.participantName
          confederate := s.confederateName
          action := some "next problem"
          text := none
          x := none
          y := none
          resolution := none }
      let p :=
        match s.currentProblemIndex with
        | some k => if k < 4 then some (k + 1) else some 0
        | none => some 0
      let out := refreshAfter { s with currentProblemIndex := p }
      (out.1, Event.telemetry row :: out.2)
  | Command.startTimer, s =>
      let live := clearIntervalOpt s.timer s.liveTimers
      let tid := s.nextTimerId
      ({ s with countdown := some s.maxTime
                liveTimers := live ++ [tid]
                timer := some tid
                nextTimerId := tid + 1 }, [])
  | Command.stopTimer, s =>
      ({ s with liveTimers := clearIntervalOpt s.timer s.liveTimers, timer := none }, [])
  | Command.resetTimer, s =>
      ({ s with countdown := some s.maxTime }, [Event.timerUpdate s.maxTime])
  | Command.setMaxTime t, s =>
      ({ s with maxTime := t
                liveTimers := clearIntervalOpt s.timer s.liveTimers
                timer := none }, [Event.timerUpdate t])
  | Command.telemetryEvent d, s =>
      (s, [Event.telemetry d])
  | Command.startGame, s =>
      ({ s with gameIsLive := true }, [Event.statusUpdate true])
  | Command.stopGame, s =>
      ({ s with gameIsLive := false }, [Event.statusUpdate false])
  | Command.setChimes c, s =>
      ({ s with chimesConfig := some c }, [Event.chimesUpdated (some c)])
  | Command.getChimes, s =>
      (s, [Event.chimesUpdated s.chimesConfig])
  | Command.setGameResolution k a, s =>
      ({ s with gameResolutionType := k, teamAnswer := a }, [Event.setAnswer a])
  | Command.blockFinished, s =>
      (s, [Event.newConfederate ""])
  | Command.tutorialProblem d, s =>
      (s, [Event.problemUpdateRaw d])
  | Command.resetPoints, s =>
      ({ s with currentScore := 0 }, [Event.pointsUpdate 0])
  | Command.clearAnswer, s =>
      (s, [Event.setAnswer (some "")])
  | Command.tutorialDone n, s =>
      (s, [Event.logWrite "tutorial_logs" ("Tries: " ++ toString n),
           Event.tutorialDone n])
  | Command.gameEnded, s =>
      (s, [Event.showEndModal])

/-- The body of the `setInterval` callback registered by `start timer`: if
`countdown > 0`, decrement and emit "timer update"; otherwise
`clearInterval(timer)`, stage `TNP`, run `resolveGame`, and null the
handle — in that source order. -/
def tickBody (s : Session) : Session × List Event :=
  if jsGtZero s.countdown then
    let c := jsToNumber s.countdown - 1
    ({ s with countdown := some c }, [Event.timerUpdate c])
  else
    let s1 := { s with liveTimers := clearIntervalOpt s.timer s.liveTimers
                       gameResolutionType := some "TNP" }
    let out := resolveGame s1
    ({ out.1 with timer := none }, out.2)

/-- The event loop fires a tick of interval `t`: nothing happens (and nothing
is emitted) unless `t` is still registered — a cancelled interval never runs
its callback again. -/
def fireTimer (t : Nat) (s : Session) : Session × List Event :=
  if t ∈ s.liveTimers then tickBody s else (s, [])

/-- Fire `n` consecutive ticks of interval `t`, accumulating the emitted
events in order. -/
def runTicks (t : Nat) : Nat → Session → Session × List Event
  | 0, s => (s, [])
  | n + 1, s =>
      let out := fireTimer t s
      let rest := runTicks t n out.1
      (rest.1, out.2 ++ rest.2)

/-- Apply the `next problem` handler `n` times. -/
def stepsNP : Nat → Session → Session
  | 0, s => s
  | n + 1, s => stepsNP n (handle Command.nextProblem s).1

/-- The session states reachable from server startup under any interleaving
of client commands and timer ticks. -/
inductive Reachable : Session → Prop
  | init (bs : List Block) (mt pa : Int) : Reachable (initSession bs mt pa)
  | cmd {s : Session} (h : Reachable s) (c : Command) : Reachable (handle c s).1
  | tick {s : Session} (h : Reachable s) (t : Nat) : Reachable (fireTimer t s).1

/-- A fixed 3-block catalog used to instantiate the out-of-range-selection
scenario. -/
def catalog3 : List Block :=
  [⟨"block1", [⟨"p1"⟩]⟩, ⟨"block2", [⟨"p2"⟩]⟩, ⟨"block3", [⟨"p3"⟩]⟩]

/-- State part of `resolveGame` in one equation: the score gains
`pointsAwarded` exactly on the `AP`/`DP` arms, and both staged inputs are
cleared unconditionally. -/
lemma resolveGame_state (s : Session) :
    (resolveGame s).1 =
      { s with
        currentScore :=
          if s.gameResolutionType = some "AP" ∨ s.gameResolutionType = some "DP" then
            s.currentScore + s.pointsAwarded
          else s.currentScore
        gameResolutionType := none
        teamAnswer := none } := by
  unfold resolveGame
  split_ifs <;> rfl

/-- C1: a single `resolveGame` call changes `currentScore` by exactly
`pointsAwarded` when the staged `gameResolutionType` is `AP` or `DP`, and
leaves `currentScore` unchanged for `ANP`, `DNP`, `TNP`, unset (`null`) and
every unrecognized kind. -/
theorem resolveGame_score_delta (s : Session) :
    ((resolveGame s).1).currentScore =
      if s.gameResolutionType = some "AP" ∨ s.gameResolutionType = some "DP" then
        s.currentScore + s.pointsAwarded
      else s.currentScore := by
  rw [resolveGame_state]

/-- C7: after every `resolveGame` call, whatever kind was staged (including
none), both `gameResolutionType` and `teamAnswer` are null — resolution
consumes and clears the staged inputs on every call. -/
theorem resolveGame_clears_staged (s : Session) :
    ((resolveGame s).1).gameResolutionType = none ∧
    ((resolveGame s).1).teamAnswer = none := by
  rw [resolveGame_state]
  exact ⟨rfl, rfl⟩

/-- C9: a second `resolveGame` call without re-staging a kind finds
`gameResolutionType = null`, resolves through the `default` arm, and leaves
`currentScore` where the first call put it — `resolveGame` is idempotent on
the score. -/
theorem resolveGame_idempotent_score (s : Session) :
    ((resolveGame s).1).gameResolutionType = none ∧
    ((resolveGame (resolveGame s).1).1).currentScore = ((resolveGame s).1).currentScore := by
  constructor
  · rw [resolveGame_state]
  · rw [resolveGame_state s, resolveGame_state]
    simp

/-- C10: `block finished` broadcasts one `new confederate` event carrying the
empty string and leaves the whole session state — in particular the stored
`confederateName` — unchanged. -/
theorem blockFinished_frame (s : Session) :
    handle Command.blockFinished s = (s, [Event.newConfederate ""]) := rfl

/-- C4: processing `update problem selection` is total for every
block/problem index pair: it always broadcasts exactly one `problem update`
event, and when the block index does not address the catalog (out of range or
null) both payload fields are null/undefined instead of an error being
raised. -/
theorem updateProblemSelection_safe (s : Session) (bi pi : Option Int) :
    ∃ b p, (handle (Command.updateProblemSelection bi pi) s).2 =
        [Event.problemUpdate b p] ∧
      (jsIndex s.blocks bi = none → b = none ∧ p = none) := by
  refine ⟨jsIndex s.blocks bi,
    (match jsIndex s.blocks bi with
     | none => none
     | some b => jsIndex b.problems pi), ?_, ?_⟩
  · simp [handle, refreshAfter, refreshGameItems]
  · intro h
    rw [h]
    exact ⟨rfl, rfl⟩

/-- Witness for C4: selecting `blockIndex = 99, problemIndex = 0` on a
3-block catalog yields one `problem update` with both fields null. -/
theorem updateProblemSelection_safe_witness :
    (handle (Command.updateProblemSelection (some 99) (some 0))
        (initSession catalog3 60 5)).2 = [Event.problemUpdate none none] := by
  obtain ⟨b, p, he, hn⟩ :=
    updateProblemSelection_safe (initSession catalog3 60 5) (some 99) (some 0)
  obtain ⟨hb, hp⟩ := hn (by decide)
  rw [he, hb, hp]

/-- Counterexample to C8 as stated: from the initial `null` block pointer,
`next block` sets `currentBlockIndex` to 1, not 0 (JavaScript evaluates
`null >= 0` as true and `null++` stores 1). -/
theorem nextBlock_null_counterexample :
    ((handle Command.nextBlock (initSession [] 60 5)).1).currentBlockIndex = some 1 ∧
    ((handle Command.nextBlock (initSession [] 60 5)).1).currentBlockIndex ≠ some 0 := by
  exact ⟨rfl, by decide⟩

/-- C8 amended: `next block` always resets `currentProblemIndex` to 0; it
sets `currentBlockIndex` to `i + 1` when the current value is an integer
`i ≥ 0`, to 0 when it is negative, and to 1 (not 0) from the `null` pointer,
because `null >= 0` is true in JavaScript and `null++` stores 1. -/
theorem nextBlock_spec (s : Session) :
    ((handle Command.nextBlock s).1).currentProblemIndex = some 0 ∧
    ((handle Command.nextBlock s).1).currentBlockIndex =
      (match s.currentBlockIndex with
       | none => some 1
       | some i => if 0 ≤ i then some (i + 1) else some 0) := by
  cases h : s.currentBlockIndex with
  | none => simp [handle, refreshAfter, refreshGameItems, jsToNumber, h]
  | some i =>
      by_cases hi : 0 ≤ i <;>
        simp [handle, refreshAfter, refreshGameItems, jsToNumber, h, hi]

/-- What the `next problem` handler does to the problem pointer: increment
while strictly below the hard-coded cap of 4 (5 problems per block), wrap to
0 from the cap or beyond, start at 0 from `null`. -/
lemma nextProblem_state (s : Session) :
    ((handle Command.nextProblem s).1).currentProblemIndex =
      (match s.currentProblemIndex with
       | some k => if k < 4 then some (k + 1) else some 0
       | none => some 0) := by
  cases h : s.currentProblemIndex <;> simp [handle, refreshAfter, h]

/-- One `next problem` step from a `null` or non-negative pointer lands in
`0..4`. -/
lemma nextProblem_range_step (s : Session)
    (h : s.currentProblemIndex = none ∨
      ∃ k : Int, s.currentProblemIndex = some k ∧ 0 ≤ k) :
    ∃ j : Int, ((handle Command.nextProblem s).1).currentProblemIndex = some j ∧
      0 ≤ j ∧ j ≤ 4 := by
  rw [nextProblem_state]
  rcases h with h0 | ⟨k, hk, hk0⟩
  · rw [h0]
    exact ⟨0, rfl, by norm_num, by norm_num⟩
  · rw [hk]
    by_cases hlt : k < 4
    · exact ⟨k + 1, by simp [hlt], by omega, by omega⟩
    · exact ⟨0, by simp [hlt], by norm_num, by norm_num⟩

/-- Iterating `next problem` preserves the `0..4` range of the pointer. -/
lemma stepsNP_range (n : Nat) : ∀ s : Session,
    (∃ j : Int, s.currentProblemIndex = some j ∧ 0 ≤ j ∧ j ≤ 4) →
    ∃ j : Int, (stepsNP n s).currentProblemIndex = some j ∧ 0 ≤ j ∧ j ≤ 4 := by
  induction n with
  | zero => exact fun s h => h
  | succ m ih =>
      intro s h
      obtain ⟨j, hj, hj0, _⟩ := h
      exact ih _ (nextProblem_range_step s (Or.inr ⟨j, hj, hj0⟩))

/-- C3: starting from a `null` or non-negative problem pointer, every
`next problem` command leaves `currentProblemIndex` an integer in `0..4`
(cap 5): it becomes `i + 1` from an in-range `i < 4`, and 0 from `null` or
from any `i ≥ 4`; and any non-empty sequence of `next problem` commands also
keeps it in `0..4`. -/
theorem nextProblem_cycles (s : Session)
    (h : s.currentProblemIndex = none ∨
      ∃ k : Int, s.currentProblemIndex = some k ∧ 0 ≤ k) :
    (∃ j : Int, ((handle Command.nextProblem s).1).currentProblemIndex = some j ∧
      0 ≤ j ∧ j ≤ 4 ∧
      (∀ k : Int, s.currentProblemIndex = some k → 0 ≤ k → k < 4 → j = k + 1) ∧
      (s.currentProblemIndex = none → j = 0) ∧
      (∀ k : Int, s.currentProblemIndex = some k → 4 ≤ k → j = 0)) ∧
    (∀ n : Nat, 1 ≤ n →
      ∃ j : Int, (stepsNP n s).currentProblemIndex = some j ∧ 0 ≤ j ∧ j ≤ 4) := by
  constructor
  · rcases h with h0 | ⟨k, hk, hk0⟩
    · refine ⟨0, ?_, by norm_num, by norm_num, ?_, fun _ => rfl, ?_⟩
      · rw [nextProblem_state, h0]
      · intro k hk
        rw [h0] at hk
        simp at hk
      · intro k hk
        rw [h0] at hk
        simp at hk
    · by_cases hlt : k < 4
      · refine ⟨k + 1, ?_, by omega, by omega, ?_, ?_, ?_⟩
        · rw [nextProblem_state, hk]
          simp [hlt]
        · intro k2 hk2 _ _
          rw [hk] at hk2
          injection hk2 with hkk
          omega
        · intro h0
          rw [hk] at h0
          simp at h0
        · intro k2 hk2 h4
          rw [hk] at hk2
          injection hk2 with hkk
          omega
      · refine ⟨0, ?_, by norm_num, by norm_num, ?_, ?_, ?_⟩
        · rw [nextProblem_state, hk]
          simp [hlt]
        · intro k2 hk2 _ hlt2
          rw [hk] at hk2
          injection hk2 with hkk
          omega
        · intro _
          rfl
        · intro _ _ _
          rfl
  · intro n hn
    obtain ⟨m, rfl⟩ : ∃ m, n = m + 1 := ⟨n - 1, by omega⟩
    exact stepsNP_range m _ (nextProblem_range_step s h)

/-- Witness for C3: three `next problem` commands from a session whose
pointer is 2 land on an integer in `0..4`. -/
theorem nextProblem_cycles_witness :
    ∃ j : Int,
      (stepsNP 3 { initSession [] 60 5 with currentProblemIndex := some 2 }).currentProblemIndex
        = some j ∧ 0 ≤ j ∧ j ≤ 4 :=
  (nextProblem_cycles { initSession [] 60 5 with currentProblemIndex := some 2 }
    (Or.inr ⟨2, rfl, by norm_num⟩)).2 3 (by norm_num)

/-- Every command handler preserves a zero score (the only handler that
writes `currentScore` outside `resolveGame` is `reset points`, which writes
0). -/
lemma handle_score_zero {s : Session} (h : s.currentScore = 0) (c : Command) :
    ((handle c s).1).currentScore = 0 := by
  cases c <;> simp [handle, refreshAfter, h]

/-- Firing a timer tick preserves a zero score: the expiry path stages `TNP`
before calling `resolveGame`, and the `TNP` arm does not touch the score. -/
lemma fireTimer_score_zero {s : Session} (h : s.currentScore = 0) (t : Nat) :
    ((fireTimer t s).1).currentScore = 0 := by
  unfold fireTimer tickBody
  split_ifs with hmem hgt
  · exact h
  · simp [resolveGame_state, h]
  · exact h

/-- On every reachable session state the score is 0: the only call site of
`resolveGame` in the server is timer expiry, which stages `TNP` first, and
`reset points` writes 0. -/
lemma reachable_score_zero {s : Session} (h : Reachable s) : s.currentScore = 0 := by
  induction h with
  | init bs mt pa => rfl
  | cmd hr c ih => exact handle_score_zero ih c
  | tick hr t ih => exact fireTimer_score_zero ih t

/-- C5: in every reachable session state no command handler other than the
Resolution Engine changes `currentScore`, and no timer tick changes it either
— every modification is by exactly `pointsAwarded` or 0 (in reachable
executions `resolveGame` only ever runs its `TNP` arm, so the delta is 0, and
`reset points` overwrites 0 with 0). -/
theorem currentScore_only_resolution (s : Session) (h : Reachable s) :
    (∀ c : Command, ((handle c s).1).currentScore = s.currentScore) ∧
    (∀ t : Nat, ((fireTimer t s).1).currentScore = s.currentScore) := by
  have h0 := reachable_score_zero h
  refine ⟨fun c => ?_, fun t => ?_⟩
  · rw [handle_score_zero h0 c, h0]
  · rw [fireTimer_score_zero h0 t, h0]

/-- Witness for C5: from the initial state, `reset points` leaves
`currentScore` unchanged. -/
theorem currentScore_only_resolution_witness :
    ((handle Command.resetPoints (initSession [] 60 5)).1).currentScore =
      (initSession [] 60 5).currentScore :=
  (currentScore_only_resolution (initSession [] 60 5)
    (Reachable.init [] 60 5)).1 Command.resetPoints

/-- The timer-ownership invariant: the live interval set is exactly the
content of the JS `timer` variable, and the stored id is always older than
the fresh-id counter. -/
def timerInv (s : Session) : Prop :=
  s.liveTimers = s.timer.toList ∧ ∀ t : Nat, s.timer = some t → t < s.nextTimerId

/-- Under the invariant, `clearInterval(timer)` empties the live set. -/
lemma clearInterval_self {s : Session} (h1 : s.liveTimers = s.timer.toList) :
    clearIntervalOpt s.timer s.liveTimers = [] := by
  cases ht : s.timer with
  | none =>
      rw [ht] at h1
      simp [clearIntervalOpt, h1]
  | some t =>
      rw [ht] at h1
      simp [clearIntervalOpt, h1]

/-- Every command handler preserves the timer-ownership invariant; in
particular `start timer` cancels the previous interval before registering the
replacement. -/
lemma timerInv_handle {s : Session} (h : timerInv s) (c : Command) :
    timerInv (handle c s).1 := by
  obtain ⟨h1, h2⟩ := h
  cases c with
  | startTimer =>
      constructor
      · show clearIntervalOpt s.timer s.liveTimers ++ [s.nextTimerId] = _
        rw [clearInterval_self h1]
        rfl
      · intro t ht
        injection ht with ht
        show t < s.nextTimerId + 1
        omega
  | stopTimer =>
      exact ⟨by simpa using clearInterval_self h1, fun t ht => Option.noConfusion ht⟩
  | setMaxTime time =>
      exact ⟨by simpa using clearInterval_self h1, fun t ht => Option.noConfusion ht⟩
  | _ => exact ⟨h1, h2⟩

/-- Timer ticks preserve the timer-ownership invariant: a live tick either
just decrements, or (at expiry) cancels its own interval and nulls the
handle; a dead tick does nothing. -/
lemma timerInv_fire {s : Session} (h : timerInv s) (t : Nat) :
    timerInv (fireTimer t s).1 := by
  obtain ⟨h1, h2⟩ := h
  unfold fireTimer tickBody
  split_ifs with hmem hgt
  · exact ⟨h1, h2⟩
  · constructor
    · simp [resolveGame_state, clearInterval_self h1]
    · intro t2 ht2
      exact Option.noConfusion ht2
  · exact ⟨h1, h2⟩

/-- Every reachable state satisfies the timer-ownership invariant. -/
lemma reachable_timerInv {s : Session} (h : Reachable s) : timerInv s := by
  induction h with
  | init bs mt pa => exact ⟨rfl, fun t ht => Option.noConfusion ht⟩
  | cmd hr c ih => exact timerInv_handle ih c
  | tick hr t ih => exact timerInv_fire ih t

/-- C6: in every reachable state at most one countdown interval is live; a
tick of any cancelled (non-live) interval fires nothing; and `start timer`
replaces a running interval with a single fresh one (so the two tick streams
cannot interleave). -/
theorem single_timer_invariant (s : Session) (h : Reachable s) :
    s.liveTimers.length ≤ 1 ∧
    (∀ t : Nat, t ∉ s.liveTimers → fireTimer t s = (s, [])) ∧
    (∀ t : Nat, s.timer = some t →
      ((handle Command.startTimer s).1).liveTimers = [s.nextTimerId] ∧
      t ≠ s.nextTimerId) := by
  obtain ⟨h1, h2⟩ := reachable_timerInv h
  refine ⟨?_, ?_, ?_⟩
  · rw [h1]
    cases s.timer <;> simp [Option.toList]
  · intro t ht
    simp [fireTimer, ht]
  · intro t ht
    refine ⟨?_, ?_⟩
    · show clearIntervalOpt s.timer s.liveTimers ++ [s.nextTimerId] = _
      rw [clearInterval_self h1]
      rfl
    · have := h2 t ht
      omega

/-- Witness for C6: the invariant instantiated at the freshly started
server. -/
theorem single_timer_invariant_witness :
    (initSession [] 60 5).liveTimers.length ≤ 1 :=
  (single_timer_invariant (initSession [] 60 5) (Reachable.init [] 60 5)).1

/-- Ticks of a cancelled (non-live) interval never fire: iterating them any
number of times changes nothing and emits nothing. -/
lemma runTicks_dead (t n : Nat) : ∀ s : Session, t ∉ s.liveTimers →
    runTicks t n s = (s, []) := by
  induction n with
  | zero => intro s _; rfl
  | succ m ih =>
      intro s h
      simp [runTicks, fireTimer, h, ih s h]

/-- Consecutive tick runs compose: the events of `m + n` ticks are the events
of the first `m` followed by those of the next `n`. -/
lemma runTicks_split (t m n : Nat) : ∀ s : Session,
    runTicks t (m + n) s =
      ((runTicks t n (runTicks t m s).1).1,
       (runTicks t m s).2 ++ (runTicks t n (runTicks t m s).1).2) := by
  induction m with
  | zero => intro s; simp [runTicks]
  | succ k ih =>
      intro s
      simp only [Nat.succ_add, runTicks]
      rw [ih]
      simp [List.append_assoc]

/-- The session right after `maxTime` is 10 and a `start timer` command
registered interval 0. -/
def c2s : Session := (handle Command.startTimer (initSession [] 10 5)).1

/-- C2: with `maxTime = 10`, after `start timer` the ticking task emits
"timer update" 9 down to 0 over 10 ticks; the 11th tick finds the countdown
at 0, cancels the interval (live set empty, handle nulled), stages `TNP`
(visible in the telemetry row) and fires exactly one "game resolved" with
`pointsAwarded = 0` and `teamAnswer = null`; and no tick after expiry emits
anything — in particular no further "timer update" — so the tick counts stay
at 10 timer updates and 1 game resolution forever. -/
theorem timer_expiry_scenario :
    (runTicks 0 10 c2s).2 =
      [Event.timerUpdate 9, Event.timerUpdate 8, Event.timerUpdate 7,
       Event.timerUpdate 6, Event.timerUpdate 5, Event.timerUpdate 4,
       Event.timerUpdate 3, Event.timerUpdate 2, Event.timerUpdate 1,
       Event.timerUpdate 0] ∧
    (runTicks 0 11 c2s).2 =
      (runTicks 0 10 c2s).2 ++
      [Event.telemetry
        { user := none, confederate := "", action := some "game resolved",
          text := none, x := none, y := none, resolution := some "TNP" },
       Event.gameResolved
        { pointsAwarded := 0, isAnswerCorrect := false, teamAnswer := none,
          currentScore := 0 }] ∧
    ((runTicks 0 11 c2s).1).liveTimers = [] ∧
    ((runTicks 0 11 c2s).1).timer = none ∧
    (∀ k : Nat, (runTicks 0 (11 + k) c2s).2 = (runTicks 0 11 c2s).2) ∧
    (∀ k : Nat, ((runTicks 0 (11 + k) c2s).2.countP
        (fun e => match e with | Event.timerUpdate _ => true | _ => false)) = 10) ∧
    (∀ k : Nat, ((runTicks 0 (11 + k) c2s).2.countP
        (fun e => match e with | Event.gameResolved _ => true | _ => false)) = 1) := by
  have hdead : (0 : Nat) ∉ ((runTicks 0 11 c2s).1).liveTimers := by decide
  have hstab : ∀ k : Nat, (runTicks 0 (11 + k) c2s).2 = (runTicks 0 11 c2s).2 := by
    intro k
    rw [runTicks_split 0 11 k c2s, runTicks_dead 0 k _ hdead]
    simp
  refine ⟨by decide, by decide, by decide, by decide, hstab, ?_, ?_⟩
  · intro k
    rw [hstab k]
    decide
  · intro k
    rw [hstab k]
    decide
